import Mathlib

/-!
Verification development for the WAP-plugin indicator computation engine
(`src/utils/indicators.py`).  Pixel values are modelled as `FV`: an IEEE-style
floating value that is either NaN, plus/minus infinity, or a finite rational.
Rasters are lists of rows of raw rational band values; `get_array` models
`IndicatorCalculator._get_array` (negative values become NaN).  The numpy
reductions `nanmean`, `nanstd`, `nanpercentile` are modelled NaN-ignoring, with
the square root left as an explicit function parameter `sq` (its exact value is
irrelevant to the claims; hypotheses such as `sq 0 = 0` are stated where used).
The QGIS raster-calculator paths are modelled as per-pixel arithmetic over the
raw band values, since those code paths never call `_get_array`.
-/

/-- A floating-point value: NaN, plus infinity, minus infinity, or a finite
rational (idealising a finite IEEE double). -/
inductive FV where
  | nan : FV
  | inf : FV
  | ninf : FV
  | fin : ℚ → FV
deriving DecidableEq, Repr

/-- IEEE-style negation. -/
def FV.neg : FV → FV
  | .nan => .nan
  | .inf => .ninf
  | .ninf => .inf
  | .fin a => .fin (-a)

/-- IEEE-style addition: NaN propagates, `inf + ninf = nan`. -/
def FV.add : FV → FV → FV
  | .nan, _ => .nan
  | _, .nan => .nan
  | .inf, .ninf => .nan
  | .ninf, .inf => .nan
  | .inf, _ => .inf
  | _, .inf => .inf
  | .ninf, _ => .ninf
  | _, .ninf => .ninf
  | .fin a, .fin b => .fin (a + b)

/-- IEEE-style subtraction. -/
def FV.sub (a b : FV) : FV := FV.add a (FV.neg b)

/-- IEEE-style multiplication: NaN propagates, `inf * 0 = nan`. -/
def FV.mul : FV → FV → FV
  | .nan, _ => .nan
  | _, .nan => .nan
  | .fin a, .fin b => .fin (a * b)
  | .inf, .inf => .inf
  | .inf, .ninf => .ninf
  | .ninf, .inf => .ninf
  | .ninf, .ninf => .inf
  | .inf, .fin b => if b = 0 then .nan else if 0 < b then .inf else .ninf
  | .fin a, .inf => if a = 0 then .nan else if 0 < a then .inf else .ninf
  | .ninf, .fin b => if b = 0 then .nan else if 0 < b then .ninf else .inf
  | .fin a, .ninf => if a = 0 then .nan else if 0 < a then .ninf else .inf

/-- IEEE-style division: `0/0 = nan`, `x/0 = plus or minus infinity` for
nonzero finite `x`, `x/inf = 0`, `inf/inf = nan`. -/
def FV.div : FV → FV → FV
  | .nan, _ => .nan
  | _, .nan => .nan
  | .fin a, .fin b =>
      if b = 0 then (if a = 0 then .nan else if 0 < a then .inf else .ninf)
      else .fin (a / b)
  | .fin _, .inf => .fin 0
  | .fin _, .ninf => .fin 0
  | .inf, .inf => .nan
  | .inf, .ninf => .nan
  | .ninf, .inf => .nan
  | .ninf, .ninf => .nan
  | .inf, .fin b => if 0 ≤ b then .inf else .ninf
  | .ninf, .fin b => if 0 ≤ b then .ninf else .inf

/-- IEEE comparison `<`: any comparison with NaN is false. -/
def FV.lt : FV → FV → Bool
  | .fin a, .fin b => decide (a < b)
  | .fin _, .inf => true
  | .ninf, .inf => true
  | .ninf, .fin _ => true
  | _, _ => false

/-- IEEE comparison `≤`: any comparison with NaN is false. -/
def FV.le : FV → FV → Bool
  | .fin a, .fin b => decide (a ≤ b)
  | .fin _, .inf => true
  | .ninf, .inf => true
  | .ninf, .fin _ => true
  | .inf, .inf => true
  | .ninf, .ninf => true
  | _, _ => false

/-- Is this value NaN? -/
def FV.isNan : FV → Bool
  | .nan => true
  | _ => false

/-- The finite rational carried by a value, if any. -/
def FV.toFin : FV → Option ℚ
  | .fin a => some a
  | _ => none

/-- The finite values of a list (NaN and infinities dropped). -/
def finVals (xs : List FV) : List ℚ := xs.filterMap FV.toFin

/-- `np.nanmean`: the mean of the non-NaN entries; NaN when there are none. -/
def nanmean (xs : List FV) : FV :=
  let v := xs.filter (fun x => ! x.isNan)
  if v.length = 0 then FV.nan
  else FV.div (v.foldl FV.add (FV.fin 0)) (FV.fin (v.length : ℚ))

/-- `np.nanvar`: the mean of squared deviations from the nan-mean, ignoring
NaN entries (the squared deviation at a NaN entry is NaN and is ignored). -/
def nanvar (xs : List FV) : FV :=
  let m := nanmean xs
  nanmean (xs.map (fun x => FV.mul (FV.sub x m) (FV.sub x m)))

/-- `np.nanstd`: square root of `nanvar`; the square-root function on finite
rationals is the explicit parameter `sq`. -/
def nanstd (sq : ℚ → ℚ) (xs : List FV) : FV :=
  match nanvar xs with
  | .fin q => .fin (sq q)
  | v => v

/-- Insert into a sorted list of rationals. -/
def insertSorted (a : ℚ) : List ℚ → List ℚ
  | [] => [a]
  | b :: t => if a ≤ b then a :: b :: t else b :: insertSorted a t

/-- Insertion sort (ascending). -/
def sortQ (xs : List ℚ) : List ℚ := xs.foldr insertSorted []

/-- Linear-interpolation percentile of an ascending list of rationals
(numpy's default interpolation); NaN on an empty list. -/
def interpSorted (v : List ℚ) (q : ℚ) : FV :=
  if v.length = 0 then FV.nan
  else
    let pos : ℚ := q / 100 * ((v.length : ℚ) - 1)
    let i : ℕ := (Rat.floor pos).toNat
    let lo := v.getD i 0
    let hi := v.getD (min (i + 1) (v.length - 1)) 0
    FV.fin (lo + (pos - (i : ℚ)) * (hi - lo))

/-- `np.nanpercentile` over a flat list: drop NaN entries, rank the finite
values ascending, interpolate.  (Inputs in this development come from
`get_array`, so they contain no infinities.) -/
def nanpercentile (xs : List FV) (q : ℚ) : FV :=
  interpSorted (sortQ (finVals xs)) q

/-- A raw single-band raster as read from disk: rows of rational band values. -/
abbrev Band := List (List ℚ)

/-- One pixel of the load-time masking in `_get_array`:
`ras[ras < 0.0] = float('nan')`. -/
def maskPixel (v : ℚ) : FV := if v < 0 then FV.nan else FV.fin v

set_option linter.unusedVariables false in
/-- `IndicatorCalculator._get_array(ds, nan_value=-9999)`: read the band,
cast to float64, replace every value `< 0.0` with NaN.  The `nan_value`
argument appears in the Python signature but is never used in the body. -/
def get_array (nan_value : ℚ) (band : Band) : List (List FV) :=
  band.map (fun row => row.map maskPixel)

/-- Pixel accessor for a masked/output raster (NaN out of bounds). -/
def rasPx (r : List (List FV)) (i j : ℕ) : FV := (r.getD i []).getD j FV.nan

/-- Pixel accessor for a raw band (0 out of bounds). -/
def bandPx (b : Band) (i j : ℕ) : ℚ := (b.getD i []).getD j 0

/-- A two-raster QGIS raster-calculator expression, applied per pixel to the
raw band values (the calculator reads the files directly; `_get_array` and its
masking are not involved on this path). -/
def rasterCalc2 (f : ℚ → ℚ → FV) (x y : Band) : List (List FV) :=
  List.zipWith (fun xr yr => List.zipWith f xr yr) x y

/-- Number of rows of a 2-D array. -/
def bandRows (b : List (List α)) : ℕ := b.length

/-- Number of columns of a (rectangular) 2-D array. -/
def bandCols (b : List (List α)) : ℕ := (b.headD []).length

/-- numpy broadcast compatibility of one axis. -/
def dimCompat (m n : ℕ) : Bool := decide (m = n) || decide (m = 1) || decide (n = 1)

/-- numpy broadcast compatibility of two 2-D arrays. -/
def broadcastable (a b : List (List α)) : Bool :=
  dimCompat (bandRows a) (bandRows b) && dimCompat (bandCols a) (bandCols b)

/-- Broadcast elementwise combination of two 2-D arrays (numpy semantics for
two 2-D operands: an axis of size 1 is repeated). -/
def bcast2 (f : FV → FV → FV) (a b : List (List FV)) : List (List FV) :=
  (List.range (max (bandRows a) (bandRows b))).map (fun i =>
    (List.range (max (bandCols a) (bandCols b))).map (fun j =>
      f ((a.getD (if bandRows a = 1 then 0 else i) []).getD
            (if bandCols a = 1 then 0 else j) FV.nan)
        ((b.getD (if bandRows b = 1 then 0 else i) []).getD
            (if bandCols b = 1 then 0 else j) FV.nan)))

/-- The tier classifier at the end of `IndicatorCalculator.equity`:
`if equity < 10: Good / elif 10 <= equity < 25: Fair / else: Poor`. -/
def tierOf (e : FV) : String :=
  if FV.lt e (FV.fin 10) then "Good Uniformity"
  else if FV.le (FV.fin 10) e && FV.lt e (FV.fin 25) then "Fair Uniformity"
  else "Poor Uniformity"

/-- The coefficient of variation computed by `equity`:
`(np.nanstd(band) / np.nanmean(band)) * 100` over the masked array. -/
def equityCV (sq : ℚ → ℚ) (band : Band) : FV :=
  FV.mul (FV.div (nanstd sq ((get_array (-9999) band).flatten))
                 (nanmean ((get_array (-9999) band).flatten)))
         (FV.fin 100)

/-- Result of `equity`: the CV value and the uniformity tier string. -/
structure EquityOut where
  cv : FV
  tier : String
deriving DecidableEq, Repr

/-- `IndicatorCalculator.equity`: load and mask the raster, compute
`CV = nanstd/nanmean * 100`, classify into a uniformity tier. -/
def equity (sq : ℚ → ℚ) (band : Band) : EquityOut :=
  ⟨equityCV sq band, tierOf (equityCV sq band)⟩

/-- `IndicatorCalculator.beneficial_fraction`: the output raster of the QGIS
raster-calculator expression `ras@2 / ras@1` (`ras@2` = T, `ras@1` = AETI),
evaluated on the raw band values; `_get_array` is never called here. -/
def beneficial_fraction (ta aeti : Band) : List (List FV) :=
  rasterCalc2 (fun t a => FV.div (FV.fin t) (FV.fin a)) ta aeti

/-- Spec-side variant of `beneficial_fraction` with the load-time `< 0`
masking applied to both rasters before the per-pixel division, as the spec
requires of every path that reads a raster. -/
def beneficial_fraction_masked (ta aeti : Band) : List (List FV) :=
  List.zipWith (List.zipWith FV.div) (get_array (-9999) ta) (get_array (-9999) aeti)

/-- Spec-side percentile, following the spec's order of operations word for
word: flatten the pixel values, then exclude the NaN entries, then rank
(ascending) and interpolate. -/
def spec_percentile (a : List (List FV)) (q : ℚ) : FV :=
  interpSorted (sortQ (finVals a.flatten)) q

/-- Result of `adequacy`: the scalar divisor and the output raster. -/
structure AdequacyOut where
  etp : FV
  out : List (List FV)
deriving DecidableEq, Repr

/-- `IndicatorCalculator.adequacy`: mask the raster, flatten it, take the
NaN-ignoring 99th percentile `ETp`, and write the raster
`(ras@1) / ETp` over the raw band values. -/
def adequacy (aeti : Band) : AdequacyOut :=
  ⟨nanpercentile ((get_array (-9999) aeti).flatten) 99,
   aeti.map (fun row => row.map (fun v =>
     FV.div (FV.fin v) (nanpercentile ((get_array (-9999) aeti).flatten) 99)))⟩

/-- Result of `relative_water_deficit`: the scalar RWD, the P95 threshold
used, and the output raster. -/
structure RwdOut where
  rwd : FV
  etx : FV
  out : List (List FV)
deriving DecidableEq, Repr

/-- `IndicatorCalculator.relative_water_deficit`: mask the raster, flatten,
take the NaN-ignoring 95th percentile `ETx`, report the scalar
`RWD = 1 - nanmean/ETx`, and write the raster `1 - (ras@1 / ETx)` over the
raw band values, with the same `ETx`. -/
def relative_water_deficit (aeti : Band) : RwdOut :=
  ⟨FV.sub (FV.fin 1)
      (FV.div (nanmean ((get_array (-9999) aeti).flatten))
              (nanpercentile ((get_array (-9999) aeti).flatten) 95)),
   nanpercentile ((get_array (-9999) aeti).flatten) 95,
   aeti.map (fun row => row.map (fun v =>
     FV.sub (FV.fin 1)
       (FV.div (FV.fin v) (nanpercentile ((get_array (-9999) aeti).flatten) 95))))⟩

/-- The per-pixel function of the numpy (scalar-summary) path of
`total_biomass_production`: `TBP = (npp_band1 * 22.222) / 1000`. -/
def tbpScalarPixel (v : FV) : FV :=
  FV.div (FV.mul v (FV.fin (22.222 : ℚ))) (FV.fin 1000)

/-- The per-pixel function of the raster-output path of
`total_biomass_production`: the calculator expression `(ras@1 * 22.22) / 1000`
over the raw band value. -/
def tbpRasterPixel (v : ℚ) : FV :=
  FV.div (FV.mul (FV.fin v) (FV.fin (22.22 : ℚ))) (FV.fin 1000)

/-- Result of a mean-and-std indicator with an output raster. -/
structure SummaryOut where
  mean : FV
  sd : FV
  out : List (List FV)
deriving DecidableEq, Repr

/-- `IndicatorCalculator.total_biomass_production`: numpy path computes
`TBP = band * 22.222 / 1000` on the masked array and reports its nan-mean and
nan-std; raster path writes `(ras@1 * 22.22) / 1000` over the raw band. -/
def total_biomass_production (sq : ℚ → ℚ) (npp : Band) : SummaryOut :=
  ⟨nanmean (((get_array (-9999) npp).map (fun row => row.map tbpScalarPixel)).flatten),
   nanstd sq (((get_array (-9999) npp).map (fun row => row.map tbpScalarPixel)).flatten),
   npp.map (fun row => row.map tbpRasterPixel)⟩

/-- Structured failure kinds of the engine. -/
inductive IndicatorError where
  | invalidFactor : IndicatorError
  | shapeMismatch : IndicatorError
  | notImplemented : IndicatorError
deriving DecidableEq, Repr

/-- `IndicatorCalculator.biomass_water_productivity`: computes
`WP = tbp_band / aeti_band * 100` on the masked arrays inside a
`try/except ValueError`; numpy raises `ValueError` exactly when the two 2-D
shapes are not broadcast-compatible, in which case the operation reports the
size mismatch and returns before the raster calculator runs (no output
raster).  Otherwise it reports nan-mean and nan-std of `WP` and writes the
raster `ras@2 / ras@1 * 100` over the raw bands. -/
def biomass_water_productivity (sq : ℚ → ℚ) (aeti tbp : Band) :
    Except IndicatorError SummaryOut :=
  if broadcastable (get_array (-9999) tbp) (get_array (-9999) aeti) then
    Except.ok
      ⟨nanmean ((bcast2 (fun t a => FV.mul (FV.div t a) (FV.fin 100))
                  (get_array (-9999) tbp) (get_array (-9999) aeti)).flatten),
       nanstd sq ((bcast2 (fun t a => FV.mul (FV.div t a) (FV.fin 100))
                  (get_array (-9999) tbp) (get_array (-9999) aeti)).flatten),
       rasterCalc2 (fun t a => FV.mul (FV.div (FV.fin t) (FV.fin a)) (FV.fin 100))
         tbp aeti⟩
  else Except.error IndicatorError.shapeMismatch

/-- The per-pixel function of the raster-output path of `yield_indicator`:
the calculator expression `HI * AOT * fc * (ras@1 / (1 - MC))` over the raw
band value. -/
def yieldRasterPixel (MC fc AOT HI : ℚ) (v : ℚ) : FV :=
  FV.mul (FV.mul (FV.mul (FV.fin HI) (FV.fin AOT)) (FV.fin fc))
    (FV.div (FV.fin v) (FV.fin (1 - MC)))

/-- `IndicatorCalculator.yield_indicator(raster, MC, fc, AOT, HI, ...)`:
computes `YIELD = HI * AOT * fc * (tbp_band1 / (1 - MC))` on the masked
array, reports its nan-mean and nan-std, and writes the raster
`HI * AOT * fc * (ras@1 / (1 - MC))` over the raw band.  The Python body
contains no validation and no raise: the result is always `ok`. -/
def yield_indicator (sq : ℚ → ℚ) (tbp : Band) (MC fc AOT HI : ℚ) :
    Except IndicatorError SummaryOut :=
  Except.ok
    ⟨nanmean (((get_array (-9999) tbp).map (fun row => row.map (fun v =>
        FV.mul (FV.mul (FV.mul (FV.fin HI) (FV.fin AOT)) (FV.fin fc))
          (FV.div v (FV.fin (1 - MC)))))).flatten),
     nanstd sq (((get_array (-9999) tbp).map (fun row => row.map (fun v =>
        FV.mul (FV.mul (FV.mul (FV.fin HI) (FV.fin AOT)) (FV.fin fc))
          (FV.div v (FV.fin (1 - MC)))))).flatten),
     tbp.map (fun row => row.map (yieldRasterPixel MC fc AOT HI))⟩

/-- A UI parameter slot of a catalog entry: empty, a raster role chosen from
an enumerated list of role codes, or a list of scalar-factor codes. -/
inductive PSlot where
  | empty : PSlot
  | rasterChoice (label : String) (types : List String) : PSlot
  | factorList (codes : List String) : PSlot
deriving DecidableEq, Repr

/-- One catalog entry of `INDICATORS_INFO`: formula description, raster
role-code/name pairs, factor-code/description pairs, and the ordered UI
parameter slots PARAM_1..PARAM_3. -/
structure IndInfo where
  info : String
  rasters : List (String × String)
  factors : List (String × String)
  params : List PSlot
deriving DecidableEq, Repr

/-- The static indicator catalog `INDICATORS_INFO` of
`src/utils/indicators.py` (the commented-out entries Overall Consumed Ratio,
Field Application Ratio and Depleted Fraction are not part of the catalog). -/
def INDICATORS_INFO : List (String × IndInfo) :=
  [("Uniformity of Water Consumption",
    { info := "Equity is defined as the coefficients of variation (CV) of seasonal ETa in the area of interest. equity = (sd_raster / mean_raster) * 100"
      rasters := [("AETI", "Actual Evapotranspiration and Interception")]
      factors := [("sd_raster", "Standard deviation obtained from the Raster"),
                  ("mean_raster", "Mean obtained from the Raster")]
      params := [PSlot.rasterChoice "AETI" ["AETI"], PSlot.empty, PSlot.empty] }),
   ("Beneficial Fraction",
    { info := "BF = (T / AETI)"
      rasters := [("AETI", "Actual Evapotranspiration and Interception"),
                  ("T", "Transpiration")]
      factors := []
      params := [PSlot.rasterChoice "T Raster" ["T"],
                 PSlot.rasterChoice "AETI Raster" ["AETI"], PSlot.empty] }),
   ("Adequacy (Relative Evapotranspiration)",
    { info := "AD = (ETa / ETp)"
      rasters := [("ETa", "Actual Evapotranspiration and Interception"),
                  ("ETp", "95th percentile of AETI ")]
      factors := []
      params := [PSlot.rasterChoice "AETI Raster" ["AETI"], PSlot.empty, PSlot.empty] }),
   ("Relative Water Deficit",
    { info := "RWD = 1 - (AETI / ETx)"
      rasters := [("AETI", "Actual Evapotranspiration and Interception")]
      factors := [("ETx", "99 percentile of the Raster")]
      params := [PSlot.rasterChoice "AETI Raster" ["AETI"], PSlot.empty, PSlot.empty] }),
   ("Total Biomass Production",
    { info := "Net Primary Production can be used to estimate total biomass production using the following formula: TBP = (NPP * 22.22)/1000. The value 22.222 is to convert the NPP in gC/m^2 to biomass production in kg/ha. To convert to ton/ha the value is divided by 1000."
      rasters := [("NPP", "Net Primary Production")]
      factors := []
      params := [PSlot.rasterChoice "NPP Raster" ["NPP"], PSlot.empty, PSlot.empty] }),
   ("Biomass Water Productivity",
    { info := "It is defined as the total biomass production divided by the AETI: WPb = TBP/AETI * 100. The multiplication with 100 is needed to correct the units, first convert TBP in ton/ha to kg/m^2 (divide by 10) and then AETI from mm/season to m/season (divide by 1000) so that the final unit of WPb is kg/m^3."
      rasters := [("AETI", "Actual Evapotranspiration and Interception"),
                  ("TBP", "Total Biomass Productionn")]
      factors := []
      params := [PSlot.rasterChoice "AETI Raster" ["AETI"],
                 PSlot.rasterChoice "TBP Raster" ["TBP"], PSlot.empty] }),
   ("Yield",
    { info := "Yield Y = HI * AOT * fc * (TBP / (1 - MC)). MC: moisture content, dry matter over fresh biomass. fc: Light use efficiency correction factor. AOT: above ground over total biomass production ratio(AOT). HI: Harvest Index"
      rasters := [("TBP", "Total Biomass Productionn")]
      factors := []
      params := [PSlot.rasterChoice "TBP Raster" ["TBP"], PSlot.empty,
                 PSlot.factorList ["MC", "fc", "AOT", "HI"]] }),
   ("Crop Water Productivity",
    { info := "It is defined as the yield divided by the AETI: cWP = Y/AETI * 100. The multiplication with 100 is to correct the units to kg/m3 (from AETI in mm/season and TBP in ton/ha)."
      rasters := [("Y", "Yield"),
                  ("AETI", "Actual Evapotranspiration and Interception")]
      factors := []
      params := [PSlot.rasterChoice "Y Raster" ["Y"],
                 PSlot.rasterChoice "AETI Raster" ["AETI"], PSlot.empty] })]

/-- The raster roles a parameter slot names: the enumerated role list of a
raster-choice slot; factor-code slots and empty slots name no raster role. -/
def slotRoles (p : PSlot) : List String :=
  match p with
  | .rasterChoice _ ts => ts
  | _ => []

/-- The raster role codes registered in an entry (the keys of `rasters`). -/
def rasterRoles (e : IndInfo) : List String := e.rasters.map Prod.fst

/-- All raster roles named anywhere in an entry's `params` slots. -/
def paramsRoles (e : IndInfo) : List String := (e.params.map slotRoles).flatten

/-- Does the entry's `rasters` key set cover every role named in `params`? -/
def rolesSuperset (e : IndInfo) : Bool :=
  (paramsRoles e).all (fun r => (rasterRoles e).contains r)


lemma tierOf_fin (c : ℚ) :
    (tierOf (FV.fin c) = "Good Uniformity" ↔ c < 10)
    ∧ (tierOf (FV.fin c) = "Fair Uniformity" ↔ 10 ≤ c ∧ c < 25)
    ∧ (tierOf (FV.fin c) = "Poor Uniformity" ↔ 25 ≤ c) := by
  have hlt : ∀ a b : ℚ, FV.lt (FV.fin a) (FV.fin b) = decide (a < b) := fun _ _ => rfl
  have hle : ∀ a b : ℚ, FV.le (FV.fin a) (FV.fin b) = decide (a ≤ b) := fun _ _ => rfl
  have e1 : "Fair Uniformity" ≠ "Good Uniformity" := by decide
  have e2 : "Poor Uniformity" ≠ "Good Uniformity" := by decide
  have e3 : "Good Uniformity" ≠ "Fair Uniformity" := by decide
  have e4 : "Poor Uniformity" ≠ "Fair Uniformity" := by decide
  have e5 : "Good Uniformity" ≠ "Poor Uniformity" := by decide
  have e6 : "Fair Uniformity" ≠ "Poor Uniformity" := by decide
  simp only [tierOf, hlt, hle]
  by_cases h1 : c < 10
  · have k1 : ¬ 10 ≤ c := not_le.mpr h1
    have k2 : ¬ 25 ≤ c := not_le.mpr (h1.trans (by norm_num))
    simp [h1, k1, k2, e1, e2, e3, e4, e5, e6]
  · by_cases h2 : c < 25
    · have k1 : 10 ≤ c := not_lt.mp h1
      have k2 : ¬ 25 ≤ c := not_le.mpr h2
      simp [h1, h2, k1, k2, e1, e2, e3, e4, e5, e6]
    · have k1 : 10 ≤ c := not_lt.mp h1
      have k2 : 25 ≤ c := not_lt.mp h2
      simp [h1, h2, k1, k2, e1, e2, e3, e4, e5, e6]

lemma finVals_map_maskPixel (xs : List ℚ) :
    finVals (xs.map maskPixel) = xs.filter (fun v => decide (0 ≤ v)) := by
  induction xs with
  | nil => rfl
  | cons a t ih =>
    by_cases h : a < 0
    · have h2 : ¬ (0 ≤ a) := not_le.mpr h
      simp only [finVals, maskPixel, FV.toFin, List.map_cons, List.filterMap_cons,
        List.filter_cons, if_pos h, h2] at ih ⊢
      simpa using ih
    · have h2 : 0 ≤ a := not_lt.mp h
      simp only [finVals, maskPixel, FV.toFin, List.map_cons, List.filterMap_cons,
        List.filter_cons, if_neg h, h2] at ih ⊢
      simpa using congrArg (a :: ·) ih

/-- C1 (amended): the load-time masking of `_get_array` makes every reduction
see exactly the nonnegative raw values (each value `< 0.0` becomes NaN, which
`finVals` and the NaN-ignoring reductions drop), but the masking is applied
only on the paths that read through `_get_array`; the QGIS raster-calculator
output path of `beneficial_fraction` divides the raw, unmasked band values
per pixel. -/
theorem masking_only_on_array_paths (nv : ℚ) (band ta aeti : Band) :
    finVals ((get_array nv band).flatten) = band.flatten.filter (fun v => decide (0 ≤ v))
    ∧ beneficial_fraction ta aeti
        = List.zipWith (fun trow arow =>
            List.zipWith (fun t a => FV.div (FV.fin t) (FV.fin a)) trow arow) ta aeti := by
  constructor
  · show finVals ((band.map (fun row => row.map maskPixel)).flatten) = _
    rw [← List.map_flatten, finVals_map_maskPixel]
  · rfl

/-- C1 (counterexample): on the raster-output path of `beneficial_fraction`
the no-data masking is absent: for 1-pixel rasters holding the raw sentinel
`-9999`, the written pixel is the finite value 1, whereas the masked
semantics the claim asserts for this path would give NaN. -/
theorem beneficial_fraction_unmasked_cex :
    beneficial_fraction [[-9999]] [[-9999]] ≠ beneficial_fraction_masked [[-9999]] [[-9999]]
    ∧ beneficial_fraction [[-9999]] [[-9999]] = [[FV.fin 1]]
    ∧ beneficial_fraction_masked [[-9999]] [[-9999]] = [[FV.nan]] := by
  have h2 : beneficial_fraction [[-9999]] [[-9999]] = [[FV.fin 1]] := by
    norm_num [beneficial_fraction, rasterCalc2, FV.div]
  have h3 : beneficial_fraction_masked [[-9999]] [[-9999]] = [[FV.nan]] := by
    norm_num [beneficial_fraction_masked, get_array, maskPixel, FV.div]
  refine ⟨?_, h2, h3⟩
  rw [h2, h3]
  simp

/-- C2 (amended): `equity` computes `CV = nanstd/nanmean * 100` over the
masked array and, whenever the computed CV is a finite value `c`, classifies
Good Uniformity iff `c < 10`, Fair Uniformity iff `10 <= c < 25`, and Poor
Uniformity iff `25 <= c`. -/
theorem equity_tier_thresholds (sq : ℚ → ℚ) (band : Band) (c : ℚ)
    (hc : (equity sq band).cv = FV.fin c) :
    (equity sq band).cv
        = FV.mul (FV.div (nanstd sq ((get_array (-9999) band).flatten))
                         (nanmean ((get_array (-9999) band).flatten))) (FV.fin 100)
    ∧ ((equity sq band).tier = "Good Uniformity" ↔ c < 10)
    ∧ ((equity sq band).tier = "Fair Uniformity" ↔ 10 ≤ c ∧ c < 25)
    ∧ ((equity sq band).tier = "Poor Uniformity" ↔ 25 ≤ c) := by
  refine ⟨rfl, ?_⟩
  have ht : (equity sq band).tier = tierOf ((equity sq band).cv) := rfl
  rw [ht, hc]
  exact tierOf_fin c

theorem equity_tier_thresholds_witness :
    (equity id [[1]]).tier = "Good Uniformity" :=
  ((equity_tier_thresholds id [[1]] 0 (by
    norm_num [equity, equityCV, get_array, maskPixel, nanstd, nanvar, nanmean,
      FV.div, FV.mul, FV.add, FV.sub, FV.neg, FV.isNan])).2.1).mpr (by norm_num)

/-- C2 (counterexample): the all-zero 1-pixel raster is all-valid (one
non-NaN masked pixel) with standard deviation 0, yet its CV is `0/0 = NaN`
rather than 0 and the tier is Poor Uniformity even though `25 <= CV` is
false - refuting both the "Poor iff CV >= 25" direction and the "std 0
yields CV = 0 and Good Uniformity" consequence of the claim as stated. -/
theorem equity_zero_mean_cex :
    ((get_array (-9999) [[0]]).flatten.filter (fun x => ! x.isNan)).length = 1
    ∧ (equity id [[0]]).cv = FV.nan
    ∧ (equity id [[0]]).tier = "Poor Uniformity"
    ∧ FV.le (FV.fin 25) (equity id [[0]]).cv = false
    ∧ (equity id [[0]]).cv ≠ FV.fin 0 := by
  have hcv : (equity id [[0]]).cv = FV.nan := by
    norm_num [equity, equityCV, get_array, maskPixel, nanstd, nanvar, nanmean,
      FV.div, FV.mul, FV.add, FV.sub, FV.neg, FV.isNan]
  have ht : (equity id [[0]]).tier = tierOf ((equity id [[0]]).cv) := rfl
  refine ⟨by norm_num [get_array, maskPixel, FV.isNan], hcv, ?_, ?_, ?_⟩
  · rw [ht, hcv]; rfl
  · rw [hcv]; rfl
  · rw [hcv]; intro hx; exact FV.noConfusion hx

/-- C9: whenever the CV computed by `equity` is NaN (for example when every
masked pixel is NaN), both threshold comparisons are false and the else
branch classifies the raster as Poor Uniformity, never Good or Fair. -/
theorem equity_nan_cv_poor (sq : ℚ → ℚ) (band : Band)
    (h : (equity sq band).cv = FV.nan) :
    (equity sq band).tier = "Poor Uniformity" := by
  have ht : (equity sq band).tier = tierOf ((equity sq band).cv) := rfl
  rw [ht, h]
  rfl

theorem equity_nan_cv_poor_witness :
    (equity id [[-1]]).tier = "Poor Uniformity" :=
  equity_nan_cv_poor id [[-1]] (by
    norm_num [equity, equityCV, get_array, maskPixel, nanstd, nanvar, nanmean,
      FV.div, FV.mul, FV.add, FV.sub, FV.neg, FV.isNan])

/-- C10: the array `_get_array` returns does not depend on the `nan_value`
argument: the masking is keyed only on the fixed test `value < 0.0`, and
`nan_value` (default -9999) is never used in the body. -/
theorem get_array_ignores_nan_value (band : Band) (v1 v2 : ℚ) :
    get_array v1 band = get_array v2 band := rfl

/-- C3 (counterexample): called with MC = 1, `yield_indicator` does not fail:
it returns a normal result whose output raster holds an infinite pixel
(raw TBP pixel 2 maps to `2 / (1 - 1) = inf`), and its reported mean is
infinite; it never returns any error. -/
theorem yield_mc_one_cex :
    yield_indicator id [[2]] 1 1 1 1 = Except.ok ⟨FV.inf, FV.nan, [[FV.inf]]⟩
    ∧ ∀ e : IndicatorError, yield_indicator id [[2]] 1 1 1 1 ≠ Except.error e := by
  have h : yield_indicator id [[2]] 1 1 1 1 = Except.ok ⟨FV.inf, FV.nan, [[FV.inf]]⟩ := by
    norm_num [yield_indicator, yieldRasterPixel, get_array, maskPixel, nanmean, nanstd,
      nanvar, FV.div, FV.mul, FV.add, FV.sub, FV.neg, FV.isNan]
  exact ⟨h, fun e => by rw [h]; exact fun hx => Except.noConfusion hx⟩

/-- C3 (amended): `yield_indicator` performs no validation of its factors and
has no failure path at all - for every input it returns a normal result - and
with MC = 1 the per-pixel divisor `1 - MC` is zero, so every positive raw
pixel of the output raster becomes plus infinity rather than triggering an
`InvalidFactor` error. -/
theorem yield_no_invalid_factor_check (sq : ℚ → ℚ) (tbp : Band) (MC fc AOT HI : ℚ)
    (v : ℚ) (hv : 0 < v) (hp : 0 < HI * AOT * fc) :
    (∃ o, yield_indicator sq tbp MC fc AOT HI = Except.ok o)
    ∧ yieldRasterPixel 1 fc AOT HI v = FV.inf := by
  refine ⟨⟨_, rfl⟩, ?_⟩
  unfold yieldRasterPixel
  have h0 : (1 : ℚ) - 1 = 0 := by norm_num
  rw [h0]
  have hdiv : FV.div (FV.fin v) (FV.fin 0) = FV.inf := by
    simp [FV.div, hv, hv.ne']
  rw [hdiv]
  have hm : FV.mul (FV.mul (FV.fin HI) (FV.fin AOT)) (FV.fin fc)
      = FV.fin (HI * AOT * fc) := rfl
  rw [hm]
  simp [FV.mul, hp, hp.ne']

theorem yield_no_invalid_factor_check_witness :
    (∃ o, yield_indicator id [[3]] 1 1 1 1 = Except.ok o)
    ∧ yieldRasterPixel 1 1 1 1 3 = FV.inf :=
  yield_no_invalid_factor_check id [[3]] 1 1 1 1 3 (by norm_num) (by norm_num)

/-- C5 (counterexample): the two per-pixel functions of
`total_biomass_production` differ: the raster path multiplies by 22.22 while
the numpy scalar path multiplies by 22.222, so at NPP = 100 the written pixel
is 2.222 but the reported mean is 2.2222, not 2.222. -/
theorem tbp_constant_mismatch_cex :
    tbpRasterPixel 100 ≠ tbpScalarPixel (FV.fin 100)
    ∧ tbpRasterPixel 100 = FV.fin 2.222
    ∧ (total_biomass_production id [[100]]).mean = FV.fin 2.2222
    ∧ FV.fin (2.2222 : ℚ) ≠ FV.fin (2.222 : ℚ) := by
  have h1 : tbpRasterPixel 100 = FV.fin 2.222 := by
    norm_num [tbpRasterPixel, FV.mul, FV.div]
  have h2 : tbpScalarPixel (FV.fin 100) = FV.fin 2.2222 := by
    norm_num [tbpScalarPixel, FV.mul, FV.div]
  have hne : (2.2222 : ℚ) ≠ (2.222 : ℚ) := by norm_num
  have h3 : (total_biomass_production id [[100]]).mean = FV.fin 2.2222 := by
    norm_num [total_biomass_production, tbpScalarPixel, get_array, maskPixel,
      nanmean, FV.div, FV.mul, FV.add, FV.isNan]
  refine ⟨?_, h1, h3, ?_⟩
  · rw [h1, h2]
    simp only [ne_eq, FV.fin.injEq]
    exact fun hx => hne hx.symm
  · simp only [ne_eq, FV.fin.injEq]
    exact hne

/-- C5 (amended): the raster-output path of `total_biomass_production`
computes `NPP * 22.22 / 1000` per pixel while the scalar mean/std path
computes `NPP * 22.222 / 1000`, so the two per-pixel functions differ; for an
NPP raster constant 100 everywhere the output raster is 2.222 everywhere and
the reported mean is 2.2222 with std 0. -/
theorem tbp_path_constants (sq : ℚ → ℚ) (v : ℚ) (h0 : sq 0 = 0) :
    tbpRasterPixel v = FV.fin (v * 22.22 / 1000)
    ∧ tbpScalarPixel (FV.fin v) = FV.fin (v * 22.222 / 1000)
    ∧ total_biomass_production sq [[100, 100], [100, 100]]
        = ⟨FV.fin 2.2222, FV.fin 0,
           [[FV.fin 2.222, FV.fin 2.222], [FV.fin 2.222, FV.fin 2.222]]⟩ := by
  refine ⟨?_, ?_, ?_⟩
  · norm_num [tbpRasterPixel, FV.mul, FV.div]
  · norm_num [tbpScalarPixel, FV.mul, FV.div]
  · norm_num [total_biomass_production, tbpScalarPixel, tbpRasterPixel, get_array,
      maskPixel, nanmean, nanstd, nanvar, FV.div, FV.mul, FV.add, FV.sub, FV.neg,
      FV.isNan, h0]

theorem tbp_path_constants_witness :
    tbpRasterPixel 7 = FV.fin (7 * 22.22 / 1000)
    ∧ tbpScalarPixel (FV.fin 7) = FV.fin (7 * 22.222 / 1000)
    ∧ total_biomass_production id [[100, 100], [100, 100]]
        = ⟨FV.fin 2.2222, FV.fin 0,
           [[FV.fin 2.222, FV.fin 2.222], [FV.fin 2.222, FV.fin 2.222]]⟩ :=
  tbp_path_constants id 7 rfl

/-- C8 (counterexample): the catalog entry
"Adequacy (Relative Evapotranspiration)" registers the raster role codes
ETa and ETp but its params slot names the role AETI, which is not among
them - the superset invariant fails for this entry. -/
theorem catalog_adequacy_roles_cex :
    ∃ e ∈ INDICATORS_INFO, e.1 = "Adequacy (Relative Evapotranspiration)"
      ∧ paramsRoles e.2 = ["AETI"]
      ∧ rasterRoles e.2 = ["ETa", "ETp"]
      ∧ rolesSuperset e.2 = false := by decide

/-- C8 (amended): for every catalog entry except
"Adequacy (Relative Evapotranspiration)", the raster role codes registered
in `rasters` are a superset of every role named in its `params` slots. -/
theorem catalog_roles_superset_except_adequacy :
    INDICATORS_INFO.all (fun e =>
      decide (e.1 = "Adequacy (Relative Evapotranspiration)")
        || rolesSuperset e.2) = true := by decide

lemma getD_map_of_lt {α β : Type} (f : α → β) (l : List α) (i : ℕ) (d : β) (e : α)
    (h : i < l.length) : (l.map f).getD i d = f (l.getD i e) := by
  induction l generalizing i with
  | nil => simp at h
  | cons a t ih =>
    cases i with
    | zero => simp [List.getD_cons_zero]
    | succ n =>
      simp only [List.map_cons, List.getD_cons_succ]
      exact ih n (by simpa using h)

lemma rasPx_mapmap (f : ℚ → FV) (b : Band) (i j : ℕ)
    (hi : i < b.length) (hj : j < (b.getD i []).length) :
    rasPx (b.map (fun row => row.map f)) i j = f (bandPx b i j) := by
  unfold rasPx bandPx
  rw [getD_map_of_lt (fun row => row.map f) b i [] [] hi]
  exact getD_map_of_lt f (b.getD i []) j FV.nan 0 hj

/-- C6: the scalar divisor `adequacy` uses for its output raster equals the
99th percentile of the flattened pixel values of the same (masked) raster
with NaN entries excluded before ranking - `spec_percentile`, written
exactly in the spec's order flatten / exclude NaN / rank - and every
in-bounds output pixel is the raw band value divided by that recomputed
divisor (round-trip). -/
theorem adequacy_divisor_roundtrip (aeti : Band) (i j : ℕ)
    (hi : i < aeti.length) (hj : j < (aeti.getD i []).length) :
    (adequacy aeti).etp = spec_percentile (get_array (-9999) aeti) 99
    ∧ rasPx (adequacy aeti).out i j
        = FV.div (FV.fin (bandPx aeti i j))
            (spec_percentile (get_array (-9999) aeti) 99) := by
  constructor
  · rfl
  · show rasPx (aeti.map (fun row => row.map (fun v =>
        FV.div (FV.fin v) (nanpercentile ((get_array (-9999) aeti).flatten) 99)))) i j = _
    rw [rasPx_mapmap _ aeti i j hi hj]
    rfl

theorem adequacy_divisor_roundtrip_witness :
    (adequacy [[4, 2]]).etp = spec_percentile (get_array (-9999) [[4, 2]]) 99
    ∧ rasPx (adequacy [[4, 2]]).out 0 1
        = FV.div (FV.fin (bandPx [[4, 2]] 0 1))
            (spec_percentile (get_array (-9999) [[4, 2]]) 99) :=
  adequacy_divisor_roundtrip [[4, 2]] 0 1 (by simp) (by simp)

/-- C7: `relative_water_deficit` computes one P95 threshold, the NaN-ignoring
95th percentile of the flattened masked array, reports the scalar
`RWD = 1 - nanmean/P95`, and writes a raster whose in-bounds pixels are
`1 - band/P95` over the raw band values - the raster path and the scalar
path using the same threshold value. -/
theorem rwd_shared_p95 (aeti : Band) (i j : ℕ)
    (hi : i < aeti.length) (hj : j < (aeti.getD i []).length) :
    (relative_water_deficit aeti).etx = spec_percentile (get_array (-9999) aeti) 95
    ∧ (relative_water_deficit aeti).rwd
        = FV.sub (FV.fin 1) (FV.div (nanmean ((get_array (-9999) aeti).flatten))
            (spec_percentile (get_array (-9999) aeti) 95))
    ∧ rasPx (relative_water_deficit aeti).out i j
        = FV.sub (FV.fin 1) (FV.div (FV.fin (bandPx aeti i j))
            (spec_percentile (get_array (-9999) aeti) 95)) := by
  refine ⟨rfl, rfl, ?_⟩
  show rasPx (aeti.map (fun row => row.map (fun v => FV.sub (FV.fin 1)
      (FV.div (FV.fin v) (nanpercentile ((get_array (-9999) aeti).flatten) 95))))) i j = _
  rw [rasPx_mapmap _ aeti i j hi hj]
  rfl

theorem rwd_shared_p95_witness :
    (relative_water_deficit [[4, 2]]).etx = spec_percentile (get_array (-9999) [[4, 2]]) 95
    ∧ (relative_water_deficit [[4, 2]]).rwd
        = FV.sub (FV.fin 1) (FV.div (nanmean ((get_array (-9999) [[4, 2]]).flatten))
            (spec_percentile (get_array (-9999) [[4, 2]]) 95))
    ∧ rasPx (relative_water_deficit [[4, 2]]).out 0 0
        = FV.sub (FV.fin 1) (FV.div (FV.fin (bandPx [[4, 2]] 0 0))
            (spec_percentile (get_array (-9999) [[4, 2]]) 95)) :=
  rwd_shared_p95 [[4, 2]] 0 0 (by simp) (by simp)

lemma bandRows_get_array (nv : ℚ) (b : Band) : bandRows (get_array nv b) = bandRows b := by
  simp [bandRows, get_array]

lemma bandCols_get_array (nv : ℚ) (b : Band) : bandCols (get_array nv b) = bandCols b := by
  cases b <;> simp [bandCols, get_array]

lemma bandRows_replicate (n m : ℕ) (v : ℚ) :
    bandRows (List.replicate n (List.replicate m v)) = n := by
  simp [bandRows]

lemma bandCols_replicate (n m : ℕ) (v : ℚ) (hn : n ≠ 0) :
    bandCols (List.replicate n (List.replicate m v)) = m := by
  cases n with
  | zero => exact absurd rfl hn
  | succ k => simp [bandCols, List.replicate_succ]

/-- C4 (amended): `biomass_water_productivity` reports a shape mismatch (with
no output raster produced) exactly when the two masked arrays are not
numpy-broadcast-compatible; in particular AETI 100x100 with TBP 50x50 fails
before any write.  Rasters whose dimensions merely differ but broadcast
(an axis of size 1) are not rejected. -/
theorem bwp_shape_mismatch_iff_not_broadcastable (sq : ℚ → ℚ) (aeti tbp : Band) (x y : ℚ) :
    (biomass_water_productivity sq aeti tbp = Except.error IndicatorError.shapeMismatch
      ↔ broadcastable (get_array (-9999) tbp) (get_array (-9999) aeti) = false)
    ∧ biomass_water_productivity sq (List.replicate 100 (List.replicate 100 x))
        (List.replicate 50 (List.replicate 50 y))
        = Except.error IndicatorError.shapeMismatch := by
  constructor
  · unfold biomass_water_productivity
    by_cases h : broadcastable (get_array (-9999) tbp) (get_array (-9999) aeti) = true
    · simp [h]
    · rw [Bool.not_eq_true] at h
      simp [h]
  · unfold biomass_water_productivity
    have hb : broadcastable (get_array (-9999) (List.replicate 50 (List.replicate 50 y)))
        (get_array (-9999) (List.replicate 100 (List.replicate 100 x))) = false := by
      unfold broadcastable
      rw [bandRows_get_array, bandRows_get_array, bandCols_get_array, bandCols_get_array,
        bandRows_replicate, bandRows_replicate,
        bandCols_replicate _ _ _ (by norm_num), bandCols_replicate _ _ _ (by norm_num)]
      decide
    rw [hb]
    simp

/-- C4 (counterexample): two rasters of different pixel dimensions, 1x2 and
2x2, are nevertheless numpy-broadcastable, so `biomass_water_productivity`
does not fail: it returns the statistics and an output raster. -/
theorem bwp_broadcastable_shapes_cex :
    (bandRows ([[1, 1]] : Band), bandCols ([[1, 1]] : Band)) = (1, 2)
    ∧ (bandRows ([[1, 1], [1, 1]] : Band), bandCols ([[1, 1], [1, 1]] : Band)) = (2, 2)
    ∧ biomass_water_productivity id [[1, 1], [1, 1]] [[1, 1]]
        = Except.ok ⟨FV.fin 100, FV.fin 0, [[FV.fin 100, FV.fin 100]]⟩ := by
  refine ⟨by decide, by decide, ?_⟩
  norm_num [biomass_water_productivity, broadcastable, dimCompat, bandRows, bandCols,
    get_array, maskPixel, bcast2, rasterCalc2, nanmean, nanstd, nanvar,
    FV.div, FV.mul, FV.add, FV.sub, FV.neg, FV.isNan, List.range_succ]
